import Mathlib

/-!
Shallow embedding of the ss_bike_bazar_backend HTTP core (src/index.js):
an Express CRUD backend over PostgreSQL with JWT-based admin auth.

Handlers are modelled as pure functions from a request and an explicit
store state `DB` to a `Response`, the resulting store state, and a trace
of the store operations the handler executed.  External collaborators
(PostgreSQL, the jsonwebtoken and bcrypt libraries, JS `parseInt`) are
modelled from their contracts as the spec states them, executably.
-/

namespace BikeBazar

/-- Decoded JWT payload: `jwt.sign({ userId, username }, …, { expiresIn: "1d" })`
adds an issued-at time `iat` and an expiry `exp = iat + 86400` (seconds). -/
structure Claims where
  userId : Int
  username : String
  iat : Nat
  exp : Nat
deriving DecidableEq, Repr

/-- Modelled from the spec: the space of raw token strings handled by the
jsonwebtoken library (not part of this repository).  A string either
decodes as a well-formed token carrying a payload and a signature value,
or is malformed (`garbage`). -/
inductive JwtRawToken where
  | wellFormed : Claims → Nat → JwtRawToken
  | garbage : String → JwtRawToken
deriving DecidableEq, Repr

/-- JSON values, the shape of every response body.  Signed tokens are
opaque strings in the real system; here they appear via a dedicated
constructor `tok`. -/
inductive Json where
  | str : String → Json
  | int : Int → Json
  | bool : Bool → Json
  | tok : JwtRawToken → Json
  | arr : List Json → Json
  | obj : List (String × Json) → Json

/-- An HTTP response: status code and JSON body. -/
structure Response where
  status : Nat
  body : Json

/-- The uniform error body shape `{ error: msg }` of src/index.js. -/
def errBody (msg : String) : Json := Json.obj [("error", Json.str msg)]

/-- JS truthiness of an optional string request field: `undefined` and the
empty string are falsy, every other string is truthy (`!field` checks in
src/index.js). -/
def jsTruthy : Option String → Bool
  | none => false
  | some s => s ≠ ""

/-- Administrator row of the `admins` table (read-only for this core). -/
structure Admin where
  id : Int
  username : String
  password : String
deriving DecidableEq, Repr

/-- Bike listing row of the `bikes` table. -/
structure Bike where
  id : Int
  url : String
  name : String
  model : String
  engine : String
  fuel : String
  color : String
  warranty : String
deriving DecidableEq, Repr

/-- Contact submission row of the `contact_submissions` table;
`submitted_at` is the store-assigned submission timestamp. -/
structure Contact where
  id : Int
  name : String
  phone : String
  email : String
  query : String
  submitted_at : Nat
deriving DecidableEq, Repr

/-- The relational store state: the three tables of the system. -/
structure DB where
  admins : List Admin
  bikes : List Bike
  contacts : List Contact
deriving DecidableEq, Repr

/-- The parameterized SQL statements src/index.js can issue, recorded as a
trace so that "no store operation was performed" is expressible. -/
inductive StoreOp where
  | selectAdminByUsername
  | insertBike
  | updateBikeById
  | selectAllBikes
  | selectBikeById
  | deleteBikeById
  | insertContact
  | selectContactsOrdered
deriving DecidableEq, Repr

/-- Outcome of running a handler: the HTTP response, the store state it
leaves behind, and the trace of store operations it executed. -/
structure HOut where
  resp : Response
  db : DB
  ops : List StoreOp

/-- A rolling digest of a string, used to model the HMAC computation. -/
def strDigest (s : String) : Nat :=
  s.data.foldl (fun h c => h * 131 + c.toNat + 1) 7

/-- Modelled from the spec: the signature the jsonwebtoken library (not
part of this repository) computes over a payload with the process-wide
secret, modelled as a deterministic digest of the secret and all payload
fields. -/
def jwtMac (secret : String) (c : Claims) : Nat :=
  (((strDigest secret * 131 + c.userId.natAbs) * 131 + strDigest c.username) * 131
      + c.iat) * 131 + c.exp

/-- Seconds in the "1d" expiry window passed to `jwt.sign`. -/
def oneDay : Nat := 86400

/-- Modelled from the spec: `jwt.sign({ userId, username }, JWT_SECRET,
{ expiresIn: "1d" })` — a well-formed token whose payload carries the
subject id and username, the issuance time `now`, a fixed 1-day expiry,
and the signature over that payload. -/
def jwtSign (secret : String) (now : Nat) (userId : Int) (username : String) :
    JwtRawToken :=
  let c : Claims := ⟨userId, username, now, now + oneDay⟩
  JwtRawToken.wellFormed c (jwtMac secret c)

/-- Modelled from the spec: `jwt.verify(token, JWT_SECRET)` — fails on a
malformed token, on a signature that does not match the secret, or on a
passed expiry; otherwise returns the embedded claims. -/
def jwtVerify (secret : String) (now : Nat) : JwtRawToken → Except Unit Claims
  | JwtRawToken.garbage _ => Except.error ()
  | JwtRawToken.wellFormed c sig =>
      if sig = jwtMac secret c then
        if now < c.exp then Except.ok c else Except.error ()
      else Except.error ()

/-- Modelled from the spec: the stored bcrypt hash of a password (the
bcrypt library is not part of this repository); modelled as an injective
tagging of the password. -/
def bcryptHashStr (password : String) : String :=
  "$2b$10$" ++ password

/-- Modelled from the spec: `bcrypt.compare(data, hash)` — with a missing
(`undefined`) data argument the library faults (rejected promise, caught
as a server error); with a string argument it reports whether the hash
is the hash of that string. -/
def bcryptCompare (data : Option String) (hash : String) : Except Unit Bool :=
  match data with
  | none => Except.error ()
  | some p => Except.ok (hash = bcryptHashStr p)

/-- Modelled from the spec: the store's `LOWER` on one character, as
locale-independent ASCII lowercasing. -/
def sqlLowerChar (c : Char) : Char :=
  if 'A' ≤ c ∧ c ≤ 'Z' then Char.ofNat (c.toNat + 32) else c

/-- Modelled from the spec: PostgreSQL `LOWER`, a locale-independent
lowercasing of the string. -/
def sqlLower (s : String) : String :=
  String.mk (s.data.map sqlLowerChar)

/-- Modelled from the spec: `SELECT * FROM admins WHERE LOWER(username) =
LOWER($1)` run by the external store.  A missing request field arrives as
SQL NULL, and `LOWER(NULL) = LOWER(x)` is never true, so no row matches. -/
def findAdmin (db : DB) (username : Option String) : List Admin :=
  match username with
  | none => []
  | some u => db.admins.filter (fun a => sqlLower a.username = sqlLower u)

/-- Modelled from the spec: JS `parseInt(s)` with its default radix-10
behavior — skip leading whitespace, read an optional sign and the longest
leading run of decimal digits; `none` is NaN (no digits).  The
hexadecimal `0x` prefix form is not modelled. -/
def jsParseInt (s : String) : Option Int :=
  let t := s.data.dropWhile (fun c => c = ' ' ∨ c = '\t' ∨ c = '\n' ∨ c = '\r')
  let signed : Bool × List Char :=
    match t with
    | '-' :: rest => (true, rest)
    | '+' :: rest => (false, rest)
    | _ => (false, t)
  let digits := signed.2.takeWhile Char.isDigit
  if digits.isEmpty then none
  else
    let n : Nat := digits.foldl (fun acc c => acc * 10 + (c.toNat - '0'.toNat)) 0
    some (if signed.1 then -(n : Int) else (n : Int))

/-- Modelled from the spec: the external store's cast of a text parameter
to the integer column type (PostgreSQL `int4in`): optional surrounding
whitespace, an optional sign, then one or more digits and nothing else;
any other string makes the statement fault. -/
def pgIntOfString (s : String) : Option Int :=
  let t := (s.data.dropWhile (fun c => c = ' ' ∨ c = '\t' ∨ c = '\n' ∨ c = '\r')).reverse
  let t := (t.dropWhile (fun c => c = ' ' ∨ c = '\t' ∨ c = '\n' ∨ c = '\r')).reverse
  let signed : Bool × List Char :=
    match t with
    | '-' :: rest => (true, rest)
    | '+' :: rest => (false, rest)
    | _ => (false, t)
  if signed.2 ≠ [] ∧ signed.2.all Char.isDigit then
    let n : Nat := signed.2.foldl (fun acc c => acc * 10 + (c.toNat - '0'.toNat)) 0
    some (if signed.1 then -(n : Int) else (n : Int))
  else none

/-- Accumulator-passing core of `jsSplitSpace`. -/
def splitSpAux : List Char → List Char → List String
  | [], acc => [String.mk acc]
  | c :: cs, acc =>
      if c = ' ' then String.mk acc :: splitSpAux cs []
      else splitSpAux cs (acc ++ [c])

/-- JS `s.split(" ")`: split on every single space character, keeping
empty segments (used by the auth middleware on the Authorization header). -/
def jsSplitSpace (s : String) : List String :=
  splitSpAux s.data []

/-- Token extraction `authHeader && authHeader.split(" ")[1]` of the
`verifyToken` middleware: the token is the second space-separated segment
of the Authorization header, when the header is present and has one. -/
def extractBearer (authHeader : Option String) : Option String :=
  authHeader.bind (fun s => (jsSplitSpace s)[1]?)

/-- JSON encoding of a decoded JWT payload, as echoed by verify-token. -/
def claimsJson (c : Claims) : Json :=
  Json.obj [("userId", Json.int c.userId), ("username", Json.str c.username),
    ("iat", Json.int (c.iat : Int)), ("exp", Json.int (c.exp : Int))]

/-- JSON encoding of a bike row. -/
def bikeJson (b : Bike) : Json :=
  Json.obj [("id", Json.int b.id), ("url", Json.str b.url),
    ("name", Json.str b.name), ("model", Json.str b.model),
    ("engine", Json.str b.engine), ("fuel", Json.str b.fuel),
    ("color", Json.str b.color), ("warranty", Json.str b.warranty)]

/-- JSON encoding of a contact submission row. -/
def contactJson (c : Contact) : Json :=
  Json.obj [("id", Json.int c.id), ("name", Json.str c.name),
    ("phone", Json.str c.phone), ("email", Json.str c.email),
    ("query", Json.str c.query),
    ("submitted_at", Json.int (c.submitted_at : Int))]

/-- Request body of POST /api/login; absent fields are `none`. -/
structure LoginBody where
  username : Option String
  password : Option String

/-- POST /api/login (src/index.js lines 63-93): look up the admin by
case-insensitive username, compare the password against the stored hash,
and either issue a 1-day token or answer the generic 401; a faulting
compare is caught as a 500.  The handler performs no input-presence
validation: the store lookup runs unconditionally. -/
def loginHandler (secret : String) (now : Nat) (db : DB) (b : LoginBody) : HOut :=
  let rows := findAdmin db b.username
  match rows with
  | [] => ⟨⟨401, errBody "Invalid username or password"⟩, db,
      [StoreOp.selectAdminByUsername]⟩
  | user :: _ =>
      match bcryptCompare b.password user.password with
      | Except.error _ => ⟨⟨500, errBody "Server error"⟩, db,
          [StoreOp.selectAdminByUsername]⟩
      | Except.ok false => ⟨⟨401, errBody "Invalid username or password"⟩, db,
          [StoreOp.selectAdminByUsername]⟩
      | Except.ok true =>
          ⟨⟨200, Json.obj [("message", Json.str "Login successful"),
              ("token", Json.tok (jwtSign secret now user.id user.username))]⟩,
            db, [StoreOp.selectAdminByUsername]⟩

/-- POST /api/verify-token (src/index.js lines 96-108): a missing (or
empty, hence falsy) `token` body field is 401 "No token provided";
otherwise `jwt.verify` either echoes the decoded claims with
`valid: true` or the catch answers 401 "Invalid token".  Touches no
store state. -/
def verifyTokenHandler (secret : String) (now : Nat)
    (token : Option JwtRawToken) : Response :=
  match token with
  | none => ⟨401, errBody "No token provided"⟩
  | some t =>
      match jwtVerify secret now t with
      | Except.ok c =>
          ⟨200, Json.obj [("valid", Json.bool true), ("user", claimsJson c)]⟩
      | Except.error _ => ⟨401, errBody "Invalid token"⟩

/-- Request body of the bike create/update endpoints; absent fields are
`none`. -/
structure BikeBody where
  url : Option String
  name : Option String
  model : Option String
  engine : Option String
  fuel : Option String
  color : Option String
  warranty : Option String

/-- The `if (!url || !name || …)` guard of the bike handlers: every one
of the 7 fields must be truthy. -/
def allFieldsTruthy (b : BikeBody) : Bool :=
  jsTruthy b.url && jsTruthy b.name && jsTruthy b.model && jsTruthy b.engine &&
    jsTruthy b.fuel && jsTruthy b.color && jsTruthy b.warranty

/-- Modelled from the spec: the store assigns the new row's unique
identifier on insert. -/
def nextBikeId (db : DB) : Int :=
  (db.bikes.map Bike.id).foldr max 0 + 1

/-- The bike row built from a body whose 7 fields all passed the guard. -/
def bikeOfBody (i : Int) (b : BikeBody) : Bike :=
  ⟨i, b.url.getD "", b.name.getD "", b.model.getD "", b.engine.getD "",
    b.fuel.getD "", b.color.getD "", b.warranty.getD ""⟩

/-- POST /api/bikes handler body (src/index.js lines 111-128): reject 400
before any store call when a required field is falsy, else insert the row
(`INSERT … RETURNING *`) and answer 201 with it. -/
def postBikeHandler (db : DB) (b : BikeBody) : HOut :=
  if allFieldsTruthy b then
    let row := bikeOfBody (nextBikeId db) b
    ⟨⟨201, Json.obj [("message", Json.str "Bike added successfully"),
        ("bike", bikeJson row)]⟩,
      ⟨db.admins, db.bikes ++ [row], db.contacts⟩, [StoreOp.insertBike]⟩
  else ⟨⟨400, errBody "All fields are required"⟩, db, []⟩

/-- PUT /api/bikes/:id handler body (src/index.js lines 131-152): reject
400 before any store call when a required field is falsy; otherwise run
`UPDATE … WHERE id = $8 RETURNING *` with the RAW id path string (no
`parseInt`, unlike get/delete) — the store's integer cast of an
unparseable id faults the statement, caught as a 500; zero rows updated
is 404; else 200 with the updated row. -/
def putBikeHandler (db : DB) (idStr : String) (b : BikeBody) : HOut :=
  if allFieldsTruthy b then
    match pgIntOfString idStr with
    | none => ⟨⟨500, errBody "Server error"⟩, db, [StoreOp.updateBikeById]⟩
    | some i =>
        match db.bikes.find? (fun x => x.id = i) with
        | none => ⟨⟨404, errBody "Bike not found"⟩, db, [StoreOp.updateBikeById]⟩
        | some _ =>
            let row := bikeOfBody i b
            ⟨⟨200, Json.obj [("message", Json.str "Bike updated successfully"),
                ("bike", bikeJson row)]⟩,
              ⟨db.admins, db.bikes.map (fun x => if x.id = i then row else x),
                db.contacts⟩,
              [StoreOp.updateBikeById]⟩
  else ⟨⟨400, errBody "All fields are required"⟩, db, []⟩

/-- GET /api/bikes/:id (src/index.js lines 166-179): `parseInt` the id
path segment and `SELECT … WHERE id = $1`.  Modelled from the spec: a NaN
parameter matches no row, so an unparseable id and a missing row are the
same empty result — 404; a hit is 200 with the row. -/
def getBikeHandler (db : DB) (idStr : String) : HOut :=
  let rows :=
    match jsParseInt idStr with
    | none => []
    | some i => db.bikes.filter (fun x => x.id = i)
  match rows with
  | [] => ⟨⟨404, errBody "Bike not found"⟩, db, [StoreOp.selectBikeById]⟩
  | r :: _ => ⟨⟨200, bikeJson r⟩, db, [StoreOp.selectBikeById]⟩

/-- DELETE /api/bikes/:id handler body (src/index.js lines 182-195):
`parseInt` the id and `DELETE … WHERE id = $1 RETURNING *`; an empty
result (missing row or NaN id) is 404, else the row is removed and the
answer is a 200 confirmation message. -/
def deleteBikeHandler (db : DB) (idStr : String) : HOut :=
  match jsParseInt idStr with
  | none => ⟨⟨404, errBody "Bike not found"⟩, db, [StoreOp.deleteBikeById]⟩
  | some i =>
      if db.bikes.any (fun x => x.id = i) then
        ⟨⟨200, Json.obj [("message", Json.str "Bike deleted successfully")]⟩,
          ⟨db.admins, db.bikes.filter (fun x => x.id ≠ i), db.contacts⟩,
          [StoreOp.deleteBikeById]⟩
      else ⟨⟨404, errBody "Bike not found"⟩, db, [StoreOp.deleteBikeById]⟩

/-- Modelled from the spec: the store's `ORDER BY submitted_at DESC`
clause, as a sort by descending submission time. -/
def sortContactsDesc (l : List Contact) : List Contact :=
  List.insertionSort (fun x y => y.submitted_at ≤ x.submitted_at) l

/-- GET /api/contact-submissions handler body (src/index.js lines
218-226): `SELECT * FROM contact_submissions ORDER BY submitted_at DESC`,
answered 200 as a JSON array. -/
def contactSubsHandler (db : DB) : HOut :=
  ⟨⟨200, Json.arr ((sortContactsDesc db.contacts).map contactJson)⟩, db,
    [StoreOp.selectContactsOrdered]⟩

/-- The outcome of the auth gate when no token could be extracted. -/
def noTokenOut (db : DB) : HOut :=
  ⟨⟨401, errBody "No token provided"⟩, db, []⟩

/-- The `verifyToken` Express middleware (src/index.js lines 38-54):
take the second space-separated segment of the Authorization header as
the token; a missing header, a header with no second segment, or an
empty second segment is falsy — 401 "No token provided" and the handler
never runs; otherwise verify the token (`vf`), answering 401 "Invalid
token" on failure and running the handler with the decoded claims on
success. -/
def verifyTokenMw (vf : String → Except Unit Claims) (authHeader : Option String)
    (db : DB) (handler : Claims → HOut) : HOut :=
  let token := extractBearer authHeader
  if jsTruthy token then
    match vf (token.getD "") with
    | Except.ok c => handler c
    | Except.error _ => ⟨⟨401, errBody "Invalid token"⟩, db, []⟩
  else noTokenOut db

/-- The protected POST /api/bikes route: auth gate, then handler. -/
def postBikesRoute (vf : String → Except Unit Claims) (authHeader : Option String)
    (db : DB) (b : BikeBody) : HOut :=
  verifyTokenMw vf authHeader db (fun _ => postBikeHandler db b)

/-- The protected PUT /api/bikes/:id route: auth gate, then handler. -/
def putBikeRoute (vf : String → Except Unit Claims) (authHeader : Option String)
    (db : DB) (idStr : String) (b : BikeBody) : HOut :=
  verifyTokenMw vf authHeader db (fun _ => putBikeHandler db idStr b)

/-- The protected DELETE /api/bikes/:id route: auth gate, then handler. -/
def deleteBikeRoute (vf : String → Except Unit Claims) (authHeader : Option String)
    (db : DB) (idStr : String) : HOut :=
  verifyTokenMw vf authHeader db (fun _ => deleteBikeHandler db idStr)

/-- The protected GET /api/contact-submissions route: auth gate, then
handler. -/
def contactSubsRoute (vf : String → Except Unit Claims) (authHeader : Option String)
    (db : DB) : HOut :=
  verifyTokenMw vf authHeader db (fun _ => contactSubsHandler db)

/-! ### Helper lemmas about the space-splitting of the Authorization header -/

theorem splitSpAux_no_space (l acc : List Char) (h : ∀ c ∈ l, c ≠ ' ') :
    splitSpAux l acc = [String.mk (acc ++ l)] := by
  induction l generalizing acc with
  | nil => simp [splitSpAux]
  | cons c cs ih =>
      have hc : c ≠ ' ' := h c (List.mem_cons_self c cs)
      have hcs : ∀ x ∈ cs, x ≠ ' ' := fun x hx => h x (List.mem_cons_of_mem c hx)
      simp only [splitSpAux, if_neg hc, ih (acc ++ [c]) hcs, List.append_assoc,
        List.singleton_append]

theorem splitSpAux_space_append (l₁ l₂ acc : List Char) (h : ∀ c ∈ l₁, c ≠ ' ') :
    splitSpAux (l₁ ++ ' ' :: l₂) acc = String.mk (acc ++ l₁) :: splitSpAux l₂ [] := by
  induction l₁ generalizing acc with
  | nil => simp [splitSpAux]
  | cons c cs ih =>
      have hc : c ≠ ' ' := h c (List.mem_cons_self c cs)
      have hcs : ∀ x ∈ cs, x ≠ ' ' := fun x hx => h x (List.mem_cons_of_mem c hx)
      simp only [List.cons_append, splitSpAux, if_neg hc, List.append_eq]
      rw [ih (acc ++ [c]) hcs]
      simp

theorem jsSplitSpace_no_space (s : String) (h : ∀ c ∈ s.data, c ≠ ' ') :
    jsSplitSpace s = [s] := by
  unfold jsSplitSpace
  rw [splitSpAux_no_space s.data [] h]
  rfl

theorem data_space_append (x s : String) :
    (x ++ " " ++ s).data = x.data ++ ' ' :: s.data := by
  simp [String.data_append]

theorem jsSplitSpace_space_append (x s : String) (h : ∀ c ∈ x.data, c ≠ ' ') :
    jsSplitSpace (x ++ " " ++ s) = x :: jsSplitSpace s := by
  unfold jsSplitSpace
  rw [data_space_append, splitSpAux_space_append x.data s.data [] h]
  rfl

/-! ### Sample store states used by concrete witnesses -/

/-- A sample store state: one admin, one bike, one contact submission. -/
def sampleDb : DB :=
  ⟨[⟨1, "admin", bcryptHashStr "hunter2"⟩],
    [⟨1, "http://img", "CB350", "HNess", "350cc", "petrol", "red", "2y"⟩],
    [⟨1, "cust", "123", "c@x.io", "price?", 100⟩]⟩

/-! ### Claim theorems -/

/-- C6: for every protected route (bike create/update/delete,
contact-submissions list), a request carrying no Authorization header is
answered 401 "No token provided" by the `verifyToken` middleware, the
handler never runs, the store state is unchanged and no store operation
is executed — for any token verifier whatsoever. -/
theorem protected_routes_no_auth_header_401_no_store
    (vf : String → Except Unit Claims) (db : DB) (b : BikeBody) (idStr : String) :
    postBikesRoute vf none db b = noTokenOut db ∧
    putBikeRoute vf none db idStr b = noTokenOut db ∧
    deleteBikeRoute vf none db idStr = noTokenOut db ∧
    contactSubsRoute vf none db = noTokenOut db :=
  ⟨rfl, rfl, rfl, rfl⟩

/-- C10: the auth gate takes the second space-separated segment of the
Authorization header as the token without checking the scheme word.  A
header with no space (e.g. a bare token without the "Bearer " prefix) is
rejected 401 as having no token; a header "x t" or "x t r…" yields the
token t whatever the word x is, so the gate behaves identically on
"x t" and "Bearer t". -/
theorem auth_gate_uses_second_segment (vf : String → Except Unit Claims)
    (db : DB) (handler : Claims → HOut) (h x t r : String)
    (hh : ∀ c ∈ h.data, c ≠ ' ') (hx : ∀ c ∈ x.data, c ≠ ' ')
    (ht : ∀ c ∈ t.data, c ≠ ' ') (ht0 : t ≠ "") :
    verifyTokenMw vf (some h) db handler = noTokenOut db ∧
    extractBearer (some (x ++ " " ++ t)) = some t ∧
    extractBearer (some (x ++ " " ++ t ++ " " ++ r)) = some t ∧
    verifyTokenMw vf (some (x ++ " " ++ t)) db handler =
      verifyTokenMw vf (some ("Bearer" ++ " " ++ t)) db handler ∧
    verifyTokenMw vf (some (x ++ " " ++ t)) db handler =
      (match vf t with
        | Except.ok c => handler c
        | Except.error _ => ⟨⟨401, errBody "Invalid token"⟩, db, []⟩) := by
  have hb : ∀ c ∈ ("Bearer" : String).data, c ≠ ' ' := by decide
  have e1 : extractBearer (some (x ++ " " ++ t)) = some t := by
    simp [extractBearer, jsSplitSpace_space_append x t hx,
      jsSplitSpace_no_space t ht]
  have e2 : extractBearer (some ("Bearer" ++ " " ++ t)) = some t := by
    show (jsSplitSpace ("Bearer" ++ " " ++ t))[1]? = some t
    rw [jsSplitSpace_space_append "Bearer" t hb, jsSplitSpace_no_space t ht]
    rfl
  have e3 : extractBearer (some (x ++ " " ++ t ++ " " ++ r)) = some t := by
    have assoc : x ++ " " ++ t ++ " " ++ r = x ++ " " ++ (t ++ " " ++ r) := by
      simp [String.append_assoc]
    rw [assoc]
    simp [extractBearer, jsSplitSpace_space_append x (t ++ " " ++ r) hx,
      jsSplitSpace_space_append t r ht]
  refine ⟨?_, e1, e3, ?_, ?_⟩
  · simp [verifyTokenMw, extractBearer, jsSplitSpace_no_space h hh, jsTruthy,
      noTokenOut]
  · simp only [verifyTokenMw, e1, e2]
  · simp only [verifyTokenMw, e1, Option.getD_some, jsTruthy, if_pos,
      decide_eq_true_eq]
    rw [if_pos ht0]

/-- C10 witness: a concrete bare token "abcdefg" is rejected as having no
token, and a concrete header "Basic tkn xtra" yields the token "tkn",
behaving exactly like "Bearer tkn". -/
theorem auth_gate_uses_second_segment_witness :
    verifyTokenMw (fun _ => Except.error ()) (some "abcdefg") sampleDb
        (fun _ => noTokenOut sampleDb) = noTokenOut sampleDb ∧
    extractBearer (some ("Basic" ++ " " ++ "tkn")) = some "tkn" ∧
    extractBearer (some ("Basic" ++ " " ++ "tkn" ++ " " ++ "xtra")) = some "tkn" ∧
    verifyTokenMw (fun _ => Except.error ()) (some ("Basic" ++ " " ++ "tkn"))
        sampleDb (fun _ => noTokenOut sampleDb) =
      verifyTokenMw (fun _ => Except.error ())
        (some ("Bearer" ++ " " ++ "tkn")) sampleDb (fun _ => noTokenOut sampleDb) ∧
    verifyTokenMw (fun _ => Except.error ()) (some ("Basic" ++ " " ++ "tkn"))
        sampleDb (fun _ => noTokenOut sampleDb) =
      (match (fun (_ : String) => (Except.error () : Except Unit Claims)) "tkn" with
        | Except.ok c => (fun _ => noTokenOut sampleDb) c
        | Except.error _ => ⟨⟨401, errBody "Invalid token"⟩, sampleDb, []⟩) :=
  auth_gate_uses_second_segment (fun _ => Except.error ()) sampleDb
    (fun _ => noTokenOut sampleDb) "abcdefg" "Basic" "tkn" "xtra"
    (by decide) (by decide) (by decide) (by decide)

/-- C1: for GET /api/bikes/:id and DELETE /api/bikes/:id, an id path
segment that `parseInt` cannot parse (NaN) and a numeric id matching no
row both produce the same 404 "Bike not found" outcome — never a 400 or
500 — with the store unchanged. -/
theorem get_delete_unknown_or_nonnumeric_id_404 (db : DB) (idStr : String)
    (h : jsParseInt idStr = none ∨
      ∃ n, jsParseInt idStr = some n ∧ ∀ b ∈ db.bikes, b.id ≠ n) :
    getBikeHandler db idStr =
      ⟨⟨404, errBody "Bike not found"⟩, db, [StoreOp.selectBikeById]⟩ ∧
    deleteBikeHandler db idStr =
      ⟨⟨404, errBody "Bike not found"⟩, db, [StoreOp.deleteBikeById]⟩ := by
  rcases h with h | ⟨n, hn, hmiss⟩
  · exact ⟨by simp [getBikeHandler, h], by simp [deleteBikeHandler, h]⟩
  · have hfilter : db.bikes.filter (fun x => x.id = n) = [] := by
      rw [List.filter_eq_nil_iff]
      intro a ha
      simp [hmiss a ha]
    have hany : db.bikes.any (fun x => x.id = n) = false := by
      rw [List.any_eq_false]
      intro a ha
      simp [hmiss a ha]
    exact ⟨by simp [getBikeHandler, hn, hfilter],
      by simp [deleteBikeHandler, hn, hany]⟩

/-- C1 witness: against the sample store (single bike with id 1), the
non-numeric id "abc" and the absent numeric id "2" are both 404 for both
endpoints. -/
theorem get_delete_unknown_or_nonnumeric_id_404_witness :
    (getBikeHandler sampleDb "abc" =
        ⟨⟨404, errBody "Bike not found"⟩, sampleDb, [StoreOp.selectBikeById]⟩ ∧
      deleteBikeHandler sampleDb "abc" =
        ⟨⟨404, errBody "Bike not found"⟩, sampleDb, [StoreOp.deleteBikeById]⟩) ∧
    (getBikeHandler sampleDb "2" =
        ⟨⟨404, errBody "Bike not found"⟩, sampleDb, [StoreOp.selectBikeById]⟩ ∧
      deleteBikeHandler sampleDb "2" =
        ⟨⟨404, errBody "Bike not found"⟩, sampleDb, [StoreOp.deleteBikeById]⟩) :=
  ⟨get_delete_unknown_or_nonnumeric_id_404 sampleDb "abc" (Or.inl (by decide)),
    get_delete_unknown_or_nonnumeric_id_404 sampleDb "2"
      (Or.inr ⟨2, by decide, by decide⟩)⟩

/-- C5: a POST /api/bikes or PUT /api/bikes/:id request in which any of
the 7 required fields is missing or empty is answered 400 "All fields
are required" before any store operation: the bikes table is unchanged
and the operation trace is empty. -/
theorem missing_field_400_no_write (db : DB) (idStr : String) (b : BikeBody)
    (h : jsTruthy b.url = false ∨ jsTruthy b.name = false ∨
      jsTruthy b.model = false ∨ jsTruthy b.engine = false ∨
      jsTruthy b.fuel = false ∨ jsTruthy b.color = false ∨
      jsTruthy b.warranty = false) :
    postBikeHandler db b = ⟨⟨400, errBody "All fields are required"⟩, db, []⟩ ∧
    putBikeHandler db idStr b =
      ⟨⟨400, errBody "All fields are required"⟩, db, []⟩ := by
  have hf : allFieldsTruthy b = false := by
    rcases h with h | h | h | h | h | h | h <;> simp [allFieldsTruthy, h]
  exact ⟨by simp [postBikeHandler, hf], by simp [putBikeHandler, hf]⟩

/-- C5 witness: a body with an empty url and a body missing its warranty
are both rejected 400 with no store write, on create and on update. -/
theorem missing_field_400_no_write_witness :
    (postBikeHandler sampleDb ⟨some "", some "n", some "m", some "e", some "f",
        some "c", some "w"⟩ =
      ⟨⟨400, errBody "All fields are required"⟩, sampleDb, []⟩ ∧
    putBikeHandler sampleDb "1" ⟨some "", some "n", some "m", some "e", some "f",
        some "c", some "w"⟩ =
      ⟨⟨400, errBody "All fields are required"⟩, sampleDb, []⟩) ∧
    (postBikeHandler sampleDb ⟨some "u", some "n", some "m", some "e", some "f",
        some "c", none⟩ =
      ⟨⟨400, errBody "All fields are required"⟩, sampleDb, []⟩ ∧
    putBikeHandler sampleDb "1" ⟨some "u", some "n", some "m", some "e", some "f",
        some "c", none⟩ =
      ⟨⟨400, errBody "All fields are required"⟩, sampleDb, []⟩) :=
  ⟨missing_field_400_no_write sampleDb "1" _ (Or.inl rfl),
    missing_field_400_no_write sampleDb "1" _
      (Or.inr (Or.inr (Or.inr (Or.inr (Or.inr (Or.inr rfl))))))⟩

/-- C9: unlike get/delete, the update handler passes the raw id path
string to the store without `parseInt`; with all 7 fields present and an
id the store cannot cast to an integer, the statement faults and the
response is a 500 server error (never 404), with the store unchanged. -/
theorem put_nonnumeric_id_500 (db : DB) (idStr : String) (b : BikeBody)
    (hall : allFieldsTruthy b = true) (hid : pgIntOfString idStr = none) :
    putBikeHandler db idStr b =
      ⟨⟨500, errBody "Server error"⟩, db, [StoreOp.updateBikeById]⟩ := by
  simp [putBikeHandler, hall, hid]

/-- C9 witness: a full body with the non-numeric id "abc" yields a 500 on
update. -/
theorem put_nonnumeric_id_500_witness :
    putBikeHandler sampleDb "abc" ⟨some "u", some "n", some "m", some "e",
        some "f", some "c", some "w"⟩ =
      ⟨⟨500, errBody "Server error"⟩, sampleDb, [StoreOp.updateBikeById]⟩ :=
  put_nonnumeric_id_500 sampleDb "abc" _ (by decide) (by decide)

/-- C7 counterexample: the login handler performs no input-presence
validation.  On a request with the username absent, the admin lookup is
still executed (the operation trace is exactly the lookup) and the
response is the generic 401, not a validation failure — refuting the
claim that validation fails before any store lookup. -/
theorem login_no_validation_counterexample :
    (loginHandler "secret" 0 sampleDb ⟨none, some "hunter2"⟩).ops =
      [StoreOp.selectAdminByUsername] ∧
    (loginHandler "secret" 0 sampleDb ⟨none, some "hunter2"⟩).resp.status = 401 :=
  ⟨rfl, rfl⟩

/-- C7 amended: a POST /api/login request with the username absent is not
stopped by input validation: the handler executes the admin lookup with
the null username, which matches no row, and answers the generic 401
invalid-credentials outcome with the store unchanged. -/
theorem login_absent_username_still_queries (secret : String) (now : Nat)
    (db : DB) (p : Option String) :
    loginHandler secret now db ⟨none, p⟩ =
      ⟨⟨401, errBody "Invalid username or password"⟩, db,
        [StoreOp.selectAdminByUsername]⟩ :=
  rfl

/-- C3: a login with an existing username but a password that does not
match the stored hash, and a login with a username matching no
administrator, produce identical outcomes: the same 401 status and the
same "Invalid username or password" body, revealing nothing about which
check failed. -/
theorem login_failures_indistinguishable (secret : String) (now : Nat)
    (db : DB) (u1 p1 u2 p2 : String) (a : Admin) (rest : List Admin)
    (h1 : findAdmin db (some u1) = a :: rest)
    (h2 : a.password ≠ bcryptHashStr p1)
    (h3 : findAdmin db (some u2) = []) :
    loginHandler secret now db ⟨some u1, some p1⟩ =
      loginHandler secret now db ⟨some u2, some p2⟩ ∧
    loginHandler secret now db ⟨some u1, some p1⟩ =
      ⟨⟨401, errBody "Invalid username or password"⟩, db,
        [StoreOp.selectAdminByUsername]⟩ := by
  have e1 : loginHandler secret now db ⟨some u1, some p1⟩ =
      ⟨⟨401, errBody "Invalid username or password"⟩, db,
        [StoreOp.selectAdminByUsername]⟩ := by
    simp [loginHandler, h1, bcryptCompare, h2]
  have e2 : loginHandler secret now db ⟨some u2, some p2⟩ =
      ⟨⟨401, errBody "Invalid username or password"⟩, db,
        [StoreOp.selectAdminByUsername]⟩ := by
    simp [loginHandler, h3]
  exact ⟨e1.trans e2.symm, e1⟩

/-- C3 witness: against the sample store, "admin" with the wrong password
"wrong" and the unknown username "ghost" with any password get the
byte-identical 401 outcome. -/
theorem login_failures_indistinguishable_witness :
    (loginHandler "k" 0 sampleDb ⟨some "admin", some "wrong"⟩ =
      loginHandler "k" 0 sampleDb ⟨some "ghost", some "pw"⟩) ∧
    loginHandler "k" 0 sampleDb ⟨some "admin", some "wrong"⟩ =
      ⟨⟨401, errBody "Invalid username or password"⟩, sampleDb,
        [StoreOp.selectAdminByUsername]⟩ :=
  login_failures_indistinguishable "k" 0 sampleDb "admin" "wrong" "ghost" "pw"
    ⟨1, "admin", bcryptHashStr "hunter2"⟩ [] (by decide) (by decide) (by decide)

/-- C2: when login succeeds for an administrator, the token it signs
embeds that administrator's id and username with a 1-day expiry, and
verify-token, asked within the validity window, accepts it
(`valid: true`) and echoes claims carrying exactly that id and
username. -/
theorem login_token_roundtrip (secret : String) (now now' : Nat) (db : DB)
    (u p : String) (a : Admin) (rest : List Admin)
    (h1 : findAdmin db (some u) = a :: rest)
    (h2 : a.password = bcryptHashStr p)
    (h3 : now' < now + oneDay) :
    loginHandler secret now db ⟨some u, some p⟩ =
      ⟨⟨200, Json.obj [("message", Json.str "Login successful"),
          ("token", Json.tok (jwtSign secret now a.id a.username))]⟩, db,
        [StoreOp.selectAdminByUsername]⟩ ∧
    verifyTokenHandler secret now' (some (jwtSign secret now a.id a.username)) =
      ⟨200, Json.obj [("valid", Json.bool true),
        ("user", claimsJson ⟨a.id, a.username, now, now + oneDay⟩)]⟩ := by
  constructor
  · simp [loginHandler, h1, bcryptCompare, h2]
  · simp [verifyTokenHandler, jwtSign, jwtVerify, h3]

/-- C2 witness: the sample admin logs in with the right password at time
0; the issued token is accepted at time 86399 and echoes id 1 and
username "admin". -/
theorem login_token_roundtrip_witness :
    loginHandler "k" 0 sampleDb ⟨some "admin", some "hunter2"⟩ =
      ⟨⟨200, Json.obj [("message", Json.str "Login successful"),
          ("token", Json.tok (jwtSign "k" 0 1 "admin"))]⟩, sampleDb,
        [StoreOp.selectAdminByUsername]⟩ ∧
    verifyTokenHandler "k" 86399 (some (jwtSign "k" 0 1 "admin")) =
      ⟨200, Json.obj [("valid", Json.bool true),
        ("user", claimsJson ⟨1, "admin", 0, 0 + oneDay⟩)]⟩ :=
  login_token_roundtrip "k" 0 86399 sampleDb "admin" "hunter2"
    ⟨1, "admin", bcryptHashStr "hunter2"⟩ [] (by decide) rfl (by decide)

/-- C4: token verification returns claims `c` iff the token is
well-formed with payload `c`, its signature is exactly the one the
process-wide secret produces over `c`, and its expiry has not passed;
on success verify-token echoes the claims with `valid: true`, and a
tampered signature, a malformed token, or a passed expiry is answered
401 "Invalid token". -/
theorem verify_token_accepts_iff (secret : String) (now : Nat)
    (tok : JwtRawToken) :
    (∀ c, jwtVerify secret now tok = Except.ok c ↔
      tok = JwtRawToken.wellFormed c (jwtMac secret c) ∧ now < c.exp) ∧
    (∀ c, jwtVerify secret now tok = Except.ok c →
      verifyTokenHandler secret now (some tok) =
        ⟨200, Json.obj [("valid", Json.bool true), ("user", claimsJson c)]⟩) ∧
    (jwtVerify secret now tok = Except.error () →
      verifyTokenHandler secret now (some tok) =
        ⟨401, errBody "Invalid token"⟩) ∧
    (∀ c sg, sg ≠ jwtMac secret c →
      verifyTokenHandler secret now (some (JwtRawToken.wellFormed c sg)) =
        ⟨401, errBody "Invalid token"⟩) ∧
    (∀ s, verifyTokenHandler secret now (some (JwtRawToken.garbage s)) =
      ⟨401, errBody "Invalid token"⟩) ∧
    (∀ c sg, c.exp ≤ now →
      verifyTokenHandler secret now (some (JwtRawToken.wellFormed c sg)) =
        ⟨401, errBody "Invalid token"⟩) := by
  refine ⟨?_, ?_, ?_, ?_, ?_, ?_⟩
  · intro c
    cases tok with
    | garbage s => simp [jwtVerify]
    | wellFormed c0 sg =>
        constructor
        · intro h
          simp only [jwtVerify] at h
          split_ifs at h with hs hexp
          obtain rfl : c0 = c := by
            simpa using h
          exact ⟨by rw [hs], hexp⟩
        · rintro ⟨heq, hexp⟩
          obtain ⟨rfl, rfl⟩ : c0 = c ∧ sg = jwtMac secret c := by
            simpa [JwtRawToken.wellFormed.injEq] using heq
          simp [jwtVerify, hexp]
  · intro c h
    simp [verifyTokenHandler, h]
  · intro h
    simp [verifyTokenHandler, h]
  · intro c sg hs
    simp [verifyTokenHandler, jwtVerify, hs]
  · intro s
    simp [verifyTokenHandler, jwtVerify]
  · intro c sg hexp
    simp [verifyTokenHandler, jwtVerify, Nat.not_lt.mpr hexp]

/-- C4 witness: at secret "k" and time 0 the honestly signed token for
claims ⟨1, "admin", 0, 86400⟩ verifies to exactly those claims, while the
same payload with the signature value changed by one is rejected 401. -/
theorem verify_token_accepts_iff_witness :
    (jwtVerify "k" 0 (jwtSign "k" 0 1 "admin") =
        Except.ok ⟨1, "admin", 0, 0 + oneDay⟩) ∧
    verifyTokenHandler "k" 0
        (some (JwtRawToken.wellFormed ⟨1, "admin", 0, 0 + oneDay⟩
          (jwtMac "k" ⟨1, "admin", 0, 0 + oneDay⟩ + 1))) =
      ⟨401, errBody "Invalid token"⟩ :=
  ⟨((verify_token_accepts_iff "k" 0 (jwtSign "k" 0 1 "admin")).1
      ⟨1, "admin", 0, 0 + oneDay⟩).mpr ⟨rfl, by decide⟩,
    (verify_token_accepts_iff "k" 0
        (JwtRawToken.wellFormed ⟨1, "admin", 0, 0 + oneDay⟩
          (jwtMac "k" ⟨1, "admin", 0, 0 + oneDay⟩ + 1))).2.2.2.1
      ⟨1, "admin", 0, 0 + oneDay⟩
      (jwtMac "k" ⟨1, "admin", 0, 0 + oneDay⟩ + 1) (Nat.succ_ne_self _)⟩

/-- The descending submission-time relation is total. -/
instance : IsTotal Contact (fun x y => y.submitted_at ≤ x.submitted_at) :=
  ⟨fun a b => Nat.le_total b.submitted_at a.submitted_at⟩

/-- The descending submission-time relation is transitive. -/
instance : IsTrans Contact (fun x y => y.submitted_at ≤ x.submitted_at) :=
  ⟨fun _ _ _ hab hbc => Nat.le_trans hbc hab⟩

/-- C8: on a store whose contact submissions have pairwise distinct
timestamps (at least 3 rows), GET /api/contact-submissions answers 200
with exactly the full set of rows — a permutation of the table — in
strictly descending submission-time order. -/
theorem contact_list_sorted_desc (db : DB)
    (hne : db.contacts.Pairwise (fun x y => x.submitted_at ≠ y.submitted_at))
    (_hlen : 3 ≤ db.contacts.length) :
    contactSubsHandler db =
      ⟨⟨200, Json.arr ((sortContactsDesc db.contacts).map contactJson)⟩, db,
        [StoreOp.selectContactsOrdered]⟩ ∧
    List.Perm (sortContactsDesc db.contacts) db.contacts ∧
    (sortContactsDesc db.contacts).Pairwise
      (fun x y => y.submitted_at < x.submitted_at) := by
  have hperm : List.Perm (sortContactsDesc db.contacts) db.contacts :=
    List.perm_insertionSort _ _
  refine ⟨rfl, hperm, ?_⟩
  have hsorted : (sortContactsDesc db.contacts).Pairwise
      (fun x y => y.submitted_at ≤ x.submitted_at) :=
    List.sorted_insertionSort _ _
  have hne' : (sortContactsDesc db.contacts).Pairwise
      (fun x y => x.submitted_at ≠ y.submitted_at) :=
    (hperm.pairwise_iff (by intro a b h; exact h.symm)).mpr hne
  exact (hsorted.and hne').imp (fun h => lt_of_le_of_ne h.1 (Ne.symm h.2))

/-- A sample store with three contact submissions, inserted in order with
distinct out-of-order timestamps. -/
def contactsDb : DB :=
  ⟨[], [], [⟨1, "ann", "1", "a@x.io", "q1", 5⟩, ⟨2, "bob", "2", "b@x.io", "q2", 9⟩,
    ⟨3, "cal", "3", "c@x.io", "q3", 7⟩]⟩

/-- C8 witness: for the three-submission sample store, the listing is the
full set of rows in strictly descending submission-time order. -/
theorem contact_list_sorted_desc_witness :
    contactSubsHandler contactsDb =
      ⟨⟨200, Json.arr ((sortContactsDesc contactsDb.contacts).map contactJson)⟩,
        contactsDb, [StoreOp.selectContactsOrdered]⟩ ∧
    List.Perm (sortContactsDesc contactsDb.contacts) contactsDb.contacts ∧
    (sortContactsDesc contactsDb.contacts).Pairwise
      (fun x y => y.submitted_at < x.submitted_at) :=
  contact_list_sorted_desc contactsDb (by decide) (by decide)

end BikeBazar
